import Mathlib

/-!
Shallow embedding of `src/mongo_validator.py` (class `MongoValidator`).

Python documents are dictionaries mapping string keys to values; a value is
a scalar (string, int, float, bool), `None`, a list, or a nested dict.
Python `float` payloads are modelled as rationals: every claim below is
about control flow, counting and (in)equality of error strings, never about
float rounding, and no theorem depends on the rendering of a float.
-/

inductive Value where
  | vnull : Value
  | vbool : Bool → Value
  | vint : Int → Value
  | vfloat : Rat → Value
  | vstr : String → Value
  | vlist : List Value → Value
  | vdict : List (String × Value) → Value
deriving Repr

/-- A document is a Python dict: an association list with distinct keys,
first binding wins on lookup (Python dicts have unique keys, so the two
conventions agree). -/
abbrev Doc := List (String × Value)

/-- Python `s.split(sep)` for a one-character separator, on the character
list: `"".split(".") == [""]`, `".a".split(".") == ["", "a"]`,
`"a..b".split(".") == ["a", "", "b"]`. -/
def splitCharAux (sep : Char) : List Char → List Char → List String
  | [], acc => [String.mk acc.reverse]
  | c :: cs, acc =>
    if c = sep then String.mk acc.reverse :: splitCharAux sep cs []
    else splitCharAux sep cs (c :: acc)

/-- Embeds `field_path.split('.')` from the Python source. -/
def splitDot (s : String) : List String :=
  splitCharAux '.' s.data []

/-- Python `part in value` / `value[part]` on a dict. -/
def lookupField (fields : Doc) (k : String) : Option Value :=
  match fields with
  | [] => none
  | (k', v) :: rest => if k' = k then some v else lookupField rest k

/-- The segment walk of `_get_nested_value` (and `_validate_field_existence`):
`for part in parts: if not isinstance(value, dict) or part not in value:
return None; value = value[part]`.  Returns the value reached, `some vnull`
included; the Python-level collapse of a reached `None` into the not-found
`None` is applied by `get_nested_value` below. -/
def getNested (v : Value) : List String → Option Value
  | [] => some v
  | p :: rest =>
    match v with
    | Value.vdict fs =>
      match lookupField fs p with
      | none => none
      | some w => getNested w rest
    | _ => none

/-- Embeds `MongoValidator._get_nested_value(doc, field_path)`.  Python returns the
object `None` both when the walk fails and when the stored value is `None`
itself, so both map to `none` here. -/
def get_nested_value (doc : Doc) (field_path : String) : Option Value :=
  match getNested (Value.vdict doc) (splitDot field_path) with
  | some Value.vnull => none
  | r => r

/-- The boolean walk of `_validate_field_existence`: true iff every segment
key is present, regardless of the value stored at the end. -/
def fieldExists (v : Value) : List String → Bool
  | [] => true
  | p :: rest =>
    match v with
    | Value.vdict fs =>
      match lookupField fs p with
      | none => false
      | some w => fieldExists w rest
    | _ => false

/-- Embeds `MongoValidator._validate_field_existence(doc, field_path)`. -/
def validate_field_existence (doc : Doc) (field_path : String) : Bool :=
  fieldExists (Value.vdict doc) (splitDot field_path)

/-- Python `str()` on a number for error messages.  Exact for integers; for
a non-integral rational this renders `p/q` where Python would print a float
literal — no theorem below depends on the rendering of a non-integral
number. -/
def ratStr (q : Rat) : String :=
  toString q

mutual

/-- Python `repr()` (and `str()` on containers).  Exact for the strings,
ints, bools, None and flat containers used in the claims; quoting edge
cases (strings containing quotes) and float rendering are approximated and
unused by the theorems below. -/
def pyRepr : Value → String
  | Value.vnull => "None"
  | Value.vbool true => "True"
  | Value.vbool false => "False"
  | Value.vint n => toString n
  | Value.vfloat q => ratStr q
  | Value.vstr s => "\x27" ++ s ++ "\x27"
  | Value.vlist xs => "[" ++ pyReprList xs ++ "]"
  | Value.vdict fs => "\x7b" ++ pyReprFields fs ++ "\x7d"

def pyReprList : List Value → String
  | [] => ""
  | [v] => pyRepr v
  | v :: rest => pyRepr v ++ ", " ++ pyReprList rest

def pyReprFields : List (String × Value) → String
  | [] => ""
  | [(k, v)] => "\x27" ++ k ++ "\x27: " ++ pyRepr v
  | (k, v) :: rest => "\x27" ++ k ++ "\x27: " ++ pyRepr v ++ ", " ++ pyReprFields rest

end

/-- Python `str()`: identity on strings, `repr`-like elsewhere. -/
def pyStr (v : Value) : String :=
  match v with
  | Value.vstr s => s
  | _ => pyRepr v

/-- Numeric view of a value: Python treats `bool` as a subclass of `int`
(`True == 1`), so booleans are numeric with values 0 and 1. -/
def numVal : Value → Option Rat
  | Value.vint n => some n
  | Value.vfloat q => some q
  | Value.vbool b => some (if b then 1 else 0)
  | _ => none

/-- Embeds `isinstance(value, (int, float))` — booleans pass, being ints. -/
def isNumeric (v : Value) : Bool :=
  (numVal v).isSome

/-- The numeric payload used in range comparisons. -/
def toRat (v : Value) : Rat :=
  (numVal v).getD 0

mutual

/-- Python `==` between document values: numeric kinds compare by value
(`1 == 1.0 == True`), strings and lists structurally, `None` only to
`None`.  Python dict equality is insertion-order-insensitive; here dicts
compare pointwise in order, which agrees whenever the compared dicts list
their keys in the same order (no claim compares reordered dicts). -/
def pyEq : Value → Value → Bool
  | Value.vnull, Value.vnull => true
  | Value.vstr s, Value.vstr t => s = t
  | Value.vlist xs, Value.vlist ys => pyEqList xs ys
  | Value.vdict fs, Value.vdict gs => pyEqFields fs gs
  | a, b =>
    match numVal a, numVal b with
    | some x, some y => x = y
    | _, _ => false

def pyEqList : List Value → List Value → Bool
  | [], [] => true
  | x :: xs, y :: ys => pyEq x y && pyEqList xs ys
  | _, _ => false

def pyEqFields : List (String × Value) → List (String × Value) → Bool
  | [], [] => true
  | (k, v) :: fs, (l, w) :: gs => k = l && pyEq v w && pyEqFields fs gs
  | _, _ => false

end

/-- Tests whether `sub` is a leading segment of `s` (character lists). -/
def listLeads : List Char → List Char → Bool
  | [], _ => true
  | _ :: _, [] => false
  | a :: xs, b :: ys => a = b && listLeads xs ys

/-- Tests whether `sub` occurs contiguously in `s` (character lists). -/
def listContainsSub (sub : List Char) : List Char → Bool
  | [] => listLeads sub []
  | c :: t => listLeads sub (c :: t) || listContainsSub sub t

/-- Python `sub in s` on strings: substring containment. -/
def strContains (s sub : String) : Bool :=
  listContainsSub sub.data s.data

/-- The type tags accepted by `_validate_data_type`'s `type_mapping`. -/
inductive TypeTag where
  | tstring | tint | tfloat | tbool | tlist | tdict
deriving DecidableEq, Repr

/-- Embeds `MongoValidator._validate_data_type(value, expected_type)`: Python
`isinstance(value, type_mapping[expected_type])`.  `isinstance(b, int)` is
true for booleans (bool is a subclass of int); `isinstance(5, float)` is
false. -/
def validate_data_type (value : Value) (expected_type : TypeTag) : Bool :=
  match expected_type, value with
  | TypeTag.tstring, Value.vstr _ => true
  | TypeTag.tint, Value.vint _ => true
  | TypeTag.tint, Value.vbool _ => true
  | TypeTag.tfloat, Value.vfloat _ => true
  | TypeTag.tbool, Value.vbool _ => true
  | TypeTag.tlist, Value.vlist _ => true
  | TypeTag.tdict, Value.vdict _ => true
  | _, _ => false

/-- A `numeric_ranges` rule fragment: `{min, max}` with either key
optional (`range_rules.get('min', float('-inf'))`: an absent bound behaves
as the corresponding infinity, i.e. never triggers). -/
structure RangeRule where
  min : Option Rat
  max : Option Rat
deriving Repr

/-- Embeds `MongoValidator._validate_categories`: for each `(field, allowed)`,
resolve; if the value is present (`is not None`) and not `in allowed`
(Python `==` membership), append one error.  The source f-string writes
`'{{value}}'`, which renders as the literal text `{value}`, while
`{allowed_values}` interpolates `str(allowed_values)`. -/
def validate_categories (doc : Doc) (docId : String) (categories : List (String × List Value)) : List String :=
  categories.flatMap fun fa =>
    match get_nested_value doc fa.1 with
    | none => []
    | some v =>
      if fa.2.any fun w => pyEq v w then []
      else ["Document " ++ docId ++ ": Invalid category in " ++ fa.1 ++
            ". Found \x27\x7bvalue\x7d\x27, expected one of " ++ pyRepr (Value.vlist fa.2)]

/-- Embeds `MongoValidator._validate_numeric_ranges`: for each `(field, rr)`,
resolve; if present and not `isinstance(value, (int, float))`, append one
not-numeric error and `continue`; otherwise the two bound checks run
independently.  `({{value}})` in the source f-strings renders as the
literal text `({value})`. -/
def validate_numeric_ranges (doc : Doc) (docId : String) (numeric_ranges : List (String × RangeRule)) : List String :=
  numeric_ranges.flatMap fun fr =>
    match get_nested_value doc fr.1 with
    | none => []
    | some v =>
      if isNumeric v = false then
        ["Document " ++ docId ++ ": Field " ++ fr.1 ++ " is not numeric"]
      else
        (match fr.2.min with
         | some m =>
           if toRat v < m then
             ["Document " ++ docId ++ ": Value in " ++ fr.1 ++
              " (\x7bvalue\x7d) is below minimum " ++ ratStr m]
           else []
         | none => []) ++
        (match fr.2.max with
         | some m =>
           if m < toRat v then
             ["Document " ++ docId ++ ": Value in " ++ fr.1 ++
              " (\x7bvalue\x7d) is above maximum " ++ ratStr m]
           else []
         | none => [])

/-- Embeds `MongoValidator._validate_keywords`: for each `(field, expected)`,
resolve; if present, stringify and append one error per keyword not found
as a substring.  `'{{keyword}}'` in the source f-string renders as the
literal text `{keyword}`, so the appended errors for one field are all the
same string. -/
def validate_keywords (doc : Doc) (docId : String) (keywords : List (String × List String)) : List String :=
  keywords.flatMap fun fk =>
    match get_nested_value doc fk.1 with
    | none => []
    | some v =>
      fk.2.flatMap fun keyword =>
        if strContains (pyStr v) keyword then []
        else ["Document " ++ docId ++ ": Expected keyword \x27\x7bkeyword\x7d\x27 not found in field " ++ fk.1]

/-- The inline required-fields loop of `validate_collection` (lines
121-123): one error per declared field failing `_validate_field_existence`. -/
def requiredFieldErrors (doc : Doc) (docId : String) (required_fields : List String) : List String :=
  required_fields.flatMap fun field =>
    if validate_field_existence doc field then []
    else ["Document " ++ docId ++ ": Missing required field " ++ field]

/-- The inline data-types loop of `validate_collection` (lines 126-129):
one error per declared `(field, expected_type)` whose resolved value is
present (`is not None`) and fails `_validate_data_type`. -/
def dataTypeErrors (doc : Doc) (docId : String) (data_types : List (String × TypeTag)) : List String :=
  data_types.flatMap fun ft =>
    match get_nested_value doc ft.1 with
    | none => []
    | some v =>
      if validate_data_type v ft.2 then []
      else ["Document " ++ docId ++ ": Invalid type for " ++ ft.1]

/-- The per-collection rule fragment (`rules` dict): every sub-key is
optional in the source — `rules.get('required_fields', [])` etc. — so an
absent key is the empty list here, and `expected_count` keeps its
optionality because the count-mismatch message reads
`rules['expected_count']` directly. -/
structure CollectionRule where
  expected_count : Option Nat
  required_fields : List String
  data_types : List (String × TypeTag)
  categories : List (String × List Value)
  numeric_ranges : List (String × RangeRule)
  keywords : List (String × List String)

/-- A rule fragment with every optional key absent. -/
def emptyRule : CollectionRule :=
  { expected_count := none, required_fields := [], data_types := [],
    categories := [], numeric_ranges := [], keywords := [] }

/-- Embeds `str(doc.get('_id', 'Unknown'))`. -/
def doc_id (doc : Doc) : String :=
  match lookupField doc "_id" with
  | some v => pyStr v
  | none => "Unknown"

/-- The body of the per-document loop of `validate_collection`: required
fields, then data types, then categories, ranges and keywords, appending to
one shared error list. -/
def docErrors (rules : CollectionRule) (doc : Doc) : List String :=
  requiredFieldErrors doc (doc_id doc) rules.required_fields ++
  dataTypeErrors doc (doc_id doc) rules.data_types ++
  validate_categories doc (doc_id doc) rules.categories ++
  validate_numeric_ranges doc (doc_id doc) rules.numeric_ranges ++
  validate_keywords doc (doc_id doc) rules.keywords

/-- The whole per-document loop over the sample. -/
def sampleErrors (rules : CollectionRule) (sample : List Doc) : List String :=
  sample.flatMap (docErrors rules)

/-- The abstract data source behind `self.db`: the list of known collection
names (`list_collection_names()`) and, per name, the documents in natural
retrieval order (`count_documents({})` is its length, `find().limit(n)` its
first `n` elements). -/
structure DataSource where
  collectionNames : List String
  docsOf : String → List Doc

/-- The dictionary returned by `validate_collection`.  The early
non-existence return carries no `sample_size`/`total_documents` keys, hence
the `Option`s. -/
structure CollectionResult where
  collection : String
  status : String
  errors : List String
  sample_size : Option Nat
  total_documents : Option Nat
deriving Repr

/-- The count check of `validate_collection` (lines 109-111): compares
against `rules.get('expected_count', 0)`; with the key absent the
comparison `actual_count < 0` is always false, so matching on the option is
equivalent and keeps the message access `rules['expected_count']` well
defined. -/
def countMismatchErrors (rules : CollectionRule) (actual_count : Nat) : List String :=
  match rules.expected_count with
  | some ec =>
    if actual_count < ec then
      ["Expected " ++ toString ec ++ " documents, found " ++ toString actual_count]
    else []
  | none => []

/-- The full error list of one `validate_collection` pass over an existing
collection: the count check, then the per-document loop over the sample
`collection.find().limit(min(1000, actual_count))`. -/
def collectionErrors (db : DataSource) (collection_name : String) (rules : CollectionRule) : List String :=
  countMismatchErrors rules (db.docsOf collection_name).length ++
    sampleErrors rules ((db.docsOf collection_name).take (min 1000 (db.docsOf collection_name).length))

/-- Embeds `MongoValidator.validate_collection(collection_name, rules)`. -/
def validate_collection (db : DataSource) (collection_name : String) (rules : CollectionRule) : CollectionResult :=
  if collection_name ∈ db.collectionNames then
    { collection := collection_name,
      status := if (collectionErrors db collection_name rules).isEmpty then "Passed" else "Failed",
      errors := collectionErrors db collection_name rules,
      sample_size := some (min 1000 (db.docsOf collection_name).length),
      total_documents := some (db.docsOf collection_name).length }
  else
    { collection := collection_name,
      status := "Failed",
      errors := ["Collection " ++ collection_name ++ " does not exist"],
      sample_size := none,
      total_documents := none }

/-- Embeds `isinstance(value, dict)`. -/
def isDict : Value → Bool
  | Value.vdict _ => true
  | _ => false

mutual

/-- No mapping reachable through dict nesting binds the empty-string key.
Python dicts may bind `""`, which is what makes this side condition
necessary for the fails-closed behavior of empty path segments. -/
def noEmptyKey : Value → Bool
  | Value.vdict fs => noEmptyKeyFields fs
  | _ => true

def noEmptyKeyFields : List (String × Value) → Bool
  | [] => true
  | (k, v) :: rest =>
    if k = "" then false else noEmptyKey v && noEmptyKeyFields rest

end

theorem fieldExists_eq_isSome (parts : List String) : ∀ v : Value, fieldExists v parts = (getNested v parts).isSome := by
  induction parts with
  | nil => intro v; rfl
  | cons p rest ih =>
    intro v
    cases v <;> simp only [fieldExists, getNested, Option.isSome]
    case vdict fs =>
      cases h : lookupField fs p with
      | none => rfl
      | some w => exact ih w

theorem lookupField_empty_of_noEmptyKeyFields (fs : Doc) (h : noEmptyKeyFields fs = true) :
    lookupField fs "" = none := by
  induction fs with
  | nil => rfl
  | cons kv rest ih =>
    obtain ⟨k, v⟩ := kv
    simp only [noEmptyKeyFields] at h
    by_cases hk : k = ""
    · simp [hk] at h
    · simp only [hk, if_false] at h
      simp only [lookupField, hk, if_false]
      exact ih (by simp_all)

theorem noEmptyKey_of_lookupField (fs : Doc) (k : String) (w : Value)
    (h : noEmptyKeyFields fs = true) (hl : lookupField fs k = some w) : noEmptyKey w = true := by
  induction fs with
  | nil => simp [lookupField] at hl
  | cons kv rest ih =>
    obtain ⟨k', v⟩ := kv
    simp only [noEmptyKeyFields] at h
    by_cases hk : k' = ""
    · simp [hk] at h
    · simp only [hk, if_false, Bool.and_eq_true] at h
      simp only [lookupField] at hl
      by_cases he : k' = k
      · simp only [he, if_true] at hl
        cases hl
        exact h.1
      · simp only [he, if_false] at hl
        exact ih h.2 hl

theorem getNested_none_of_empty_mem (parts : List String) :
    ∀ v : Value, noEmptyKey v = true → "" ∈ parts → getNested v parts = none := by
  induction parts with
  | nil => intro v _ hm; simp at hm
  | cons p rest ih =>
    intro v hv hm
    cases v <;> simp only [getNested]
    case vdict fs =>
      simp only [noEmptyKey] at hv
      by_cases hp : p = ""
      · subst hp
        simp [lookupField_empty_of_noEmptyKeyFields fs hv]
      · have hm' : "" ∈ rest := by
          rcases List.mem_cons.mp hm with h | h
          · exact absurd h.symm hp
          · exact h
        cases hl : lookupField fs p with
        | none => rfl
        | some w => exact ih w (noEmptyKey_of_lookupField fs p w hv hl) hm'

theorem countMismatchErrors_eq_nil_iff (rules : CollectionRule) (n : Nat) :
    countMismatchErrors rules n = [] ↔ ¬ n < rules.expected_count.getD 0 := by
  cases h : rules.expected_count with
  | none => simp [countMismatchErrors, h]
  | some ec =>
    simp only [countMismatchErrors, h, Option.getD_some]
    by_cases hlt : n < ec <;> simp [hlt]

/-- C9: for every boolean value `b`, `_validate_data_type(b, 'int')`
returns true — Python's boolean-as-integer subtyping makes a boolean field
value satisfy an `int`-tagged data-type rule. -/
theorem c9_bool_satisfies_int (b : Bool) :
    validate_data_type (Value.vbool b) TypeTag.tint = true := by
  cases b <;> rfl

/-- C2 is false as stated: for a collection absent from the data source,
the early return of `validate_collection` (line 106) carries no
`sample_size` key at all, so the result's `sample_size` is not the value 0. -/
theorem c2_counterexample :
    (validate_collection ⟨[], fun _ => []⟩ "users" emptyRule).sample_size ≠ some 0 := by
  decide

/-- C2 (amended): for every collection name not present in the data
source's list of known collections, `validate_collection` returns a Failed
result whose error list is exactly one existence error, with `sample_size`
and `total_documents` left unset (the early-return dict has no such keys),
and the result does not depend on any document content — no count check,
sampling or per-document validation is performed. -/
theorem c2_nonexistent_collection (db : DataSource) (name : String) (rules : CollectionRule)
    (h : name ∉ db.collectionNames) :
    validate_collection db name rules =
      { collection := name, status := "Failed",
        errors := ["Collection " ++ name ++ " does not exist"],
        sample_size := none, total_documents := none } ∧
    ∀ docs2 : String → List Doc,
      validate_collection ⟨db.collectionNames, docs2⟩ name rules = validate_collection db name rules := by
  constructor
  · simp [validate_collection, h]
  · intro docs2
    simp [validate_collection, h]

/-- Closed witness for C2: a data source with no collections. -/
theorem c2_nonexistent_collection_witness :
    validate_collection ⟨[], fun _ => []⟩ "users" emptyRule =
      { collection := "users", status := "Failed",
        errors := ["Collection users does not exist"],
        sample_size := none, total_documents := none } :=
  (c2_nonexistent_collection ⟨[], fun _ => []⟩ "users" emptyRule (by decide)).1

/-- C3 is false as stated: a Python dict may bind the empty-string key, and
then a path with a leading dot resolves to a present value instead of
NotFound. -/
theorem c3_counterexample :
    get_nested_value [("", Value.vdict [("a", Value.vint 1)])] ".a" ≠ none := by
  have h : get_nested_value [("", Value.vdict [("a", Value.vint 1)])] ".a" = some (Value.vint 1) := rfl
  rw [h]
  exact Option.some_ne_none _

/-- C3 (amended): the resolver is total and fails closed — whenever the
current value is not a mapping, or the segment key is absent, the walk
returns NotFound (`none`) rather than raising (totality is inherent: the
embedding is a total function mirroring the loop's early returns) — and
for every document in which no reachable mapping binds the empty-string
key, every path containing an empty segment (consecutive dots, leading or
trailing dot) resolves to NotFound. -/
theorem c3_resolver_fails_closed (doc : Doc) (path : String) :
    (∀ (v : Value) (p : String) (rest : List String),
      isDict v = false → getNested v (p :: rest) = none) ∧
    (∀ (fs : Doc) (p : String) (rest : List String),
      lookupField fs p = none → getNested (Value.vdict fs) (p :: rest) = none) ∧
    (noEmptyKey (Value.vdict doc) = true → "" ∈ splitDot path →
      get_nested_value doc path = none) := by
  refine ⟨?_, ?_, ?_⟩
  · intro v p rest hv
    cases v <;> first | rfl | simp [isDict] at hv
  · intro fs p rest hl
    simp [getNested, hl]
  · intro hne hm
    have hnone := getNested_none_of_empty_mem (splitDot path) (Value.vdict doc) hne hm
    simp [get_nested_value, hnone]

/-- Closed witness for C3: a document with a normal key, probed with a
consecutive-dots path and with a trailing-dot path. -/
theorem c3_resolver_fails_closed_witness :
    get_nested_value [("a", Value.vdict [("b", Value.vint 2)])] "a..b" = none ∧
    get_nested_value [("a", Value.vdict [("b", Value.vint 2)])] "a.b." = none :=
  ⟨(c3_resolver_fails_closed [("a", Value.vdict [("b", Value.vint 2)])] "a..b").2.2
      (by decide) (by decide),
   (c3_resolver_fails_closed [("a", Value.vdict [("b", Value.vint 2)])] "a.b.").2.2
      (by decide) (by decide)⟩

/-- C7 is false as stated, twice over: (a) a declared required path whose
stored value is an explicit null resolves to NotFound for the resolver yet
RequiredFields (which walks key presence via `_validate_field_existence`)
emits no error; (b) the emitted message (line 123) has no quotes around
the path and no trailing period. -/
theorem c7_counterexample :
    (get_nested_value [("a", Value.vnull)] "a" = none ∧
      requiredFieldErrors [("a", Value.vnull)] "x0" ["a"] = []) ∧
    (requiredFieldErrors [("_id", Value.vstr "x1")] "x1" ["name"] =
        ["Document x1: Missing required field name"] ∧
      "Document x1: Missing required field name" ≠
        "Document x1: Missing required field \x27name\x27.") := by
  exact ⟨⟨rfl, rfl⟩, ⟨rfl, by decide⟩⟩

/-- C7 (amended): for each declared required FieldPath whose key walk
fails (some segment key absent — a stored null counts as present, matching
the key-presence walk, not the resolver), RequiredFields emits exactly one
error, the string `Document {id}: Missing required field {path}` (no
quotes around the path, no trailing period); the walk agrees with the
resolver's segment walk on whether a value is reached. -/
theorem c7_required_fields (doc : Doc) (docId fieldPath : String) (rest : List String) :
    requiredFieldErrors doc docId (fieldPath :: rest) =
      (if validate_field_existence doc fieldPath then []
       else ["Document " ++ docId ++ ": Missing required field " ++ fieldPath]) ++
        requiredFieldErrors doc docId rest ∧
    validate_field_existence doc fieldPath =
      (getNested (Value.vdict doc) (splitDot fieldPath)).isSome := by
  exact ⟨by simp [requiredFieldErrors], fieldExists_eq_isSome (splitDot fieldPath) (Value.vdict doc)⟩

/-- C4 is false as stated: the data-type error (line 129) names only the
document and the field — it contains neither the expected type tag
(`int`) nor the observed kind of the value (a string). -/
theorem c4_counterexample :
    dataTypeErrors [("_id", Value.vstr "x1"), ("age", Value.vstr "old")] "x1"
        [("age", TypeTag.tint)] =
      ["Document x1: Invalid type for age"] ∧
    strContains "Document x1: Invalid type for age" "int" = false ∧
    strContains "Document x1: Invalid type for age" "str" = false := by
  exact ⟨rfl, rfl, rfl⟩

/-- C4 (amended): for every declared `(field, type_tag)` pair, DataTypes
emits an error iff the field resolves to a present value failing
`_validate_data_type` — never when the resolver reports NotFound — and the
emitted error is exactly `Document {id}: Invalid type for {field}`, naming
the document and field only; contributions of the declared pairs
concatenate in declaration order. -/
theorem c4_data_types (doc : Doc) (docId f : String) (t : TypeTag)
    (rest : List (String × TypeTag)) :
    (get_nested_value doc f = none → dataTypeErrors doc docId [(f, t)] = []) ∧
    (∀ v, get_nested_value doc f = some v →
      dataTypeErrors doc docId [(f, t)] =
        if validate_data_type v t then []
        else ["Document " ++ docId ++ ": Invalid type for " ++ f]) ∧
    dataTypeErrors doc docId ((f, t) :: rest) =
      dataTypeErrors doc docId [(f, t)] ++ dataTypeErrors doc docId rest := by
  refine ⟨?_, ?_, ?_⟩
  · intro h
    simp [dataTypeErrors, h]
  · intro v h
    simp [dataTypeErrors, h]
  · simp [dataTypeErrors]

/-- Closed witness for C4: a present string value against a `float` tag
produces the single field-naming error. -/
theorem c4_data_types_witness :
    dataTypeErrors [("_id", Value.vstr "x1"), ("age", Value.vstr "old")] "x1"
        [("age", TypeTag.tfloat)] =
      ["Document x1: Invalid type for age"] := by
  rw [(c4_data_types [("_id", Value.vstr "x1"), ("age", Value.vstr "old")] "x1" "age"
        TypeTag.tfloat []).2.1 (Value.vstr "old") rfl]
  rfl

/-- C10: a field storing an explicit null is present for RequiredFields
(no missing-field error), while DataTypes, Categories, NumericRanges and
Keywords all skip it exactly as if it were absent, because
`_get_nested_value` returns the same `None` for a stored null as for a
missing path. -/
theorem c10_explicit_null (doc : Doc) (path docId : String) (t : TypeTag)
    (allowed : List Value) (rr : RangeRule) (ks : List String)
    (h : getNested (Value.vdict doc) (splitDot path) = some Value.vnull) :
    validate_field_existence doc path = true ∧
    requiredFieldErrors doc docId [path] = [] ∧
    get_nested_value doc path = none ∧
    dataTypeErrors doc docId [(path, t)] = [] ∧
    validate_categories doc docId [(path, allowed)] = [] ∧
    validate_numeric_ranges doc docId [(path, rr)] = [] ∧
    validate_keywords doc docId [(path, ks)] = [] := by
  have hex : validate_field_existence doc path = true := by
    rw [validate_field_existence, fieldExists_eq_isSome, h]
    rfl
  have hnone : get_nested_value doc path = none := by
    simp [get_nested_value, h]
  refine ⟨hex, ?_, hnone, ?_, ?_, ?_, ?_⟩
  · simp [requiredFieldErrors, hex]
  · simp [dataTypeErrors, hnone]
  · simp [validate_categories, hnone]
  · simp [validate_numeric_ranges, hnone]
  · simp [validate_keywords, hnone]

/-- Closed witness for C10: `{"a": None}` with every rule kind declared on
field `a`. -/
theorem c10_explicit_null_witness :
    validate_field_existence [("a", Value.vnull)] "a" = true ∧
    requiredFieldErrors [("a", Value.vnull)] "x9" ["a"] = [] ∧
    validate_keywords [("a", Value.vnull)] "x9" [("a", ["k"])] = [] := by
  have h := c10_explicit_null [("a", Value.vnull)] "a" "x9" TypeTag.tint []
    ⟨none, none⟩ ["k"] rfl
  exact ⟨h.1, h.2.1, h.2.2.2.2.2.2⟩

/-- C5: for each declared `(field, {min, max})`: NotFound skips, a present
non-numeric value yields exactly the one not-numeric error and no bound
checks, and for a present numeric value the below-minimum and above-maximum
checks are independent — an absent bound (modelled as the infinity default)
never fires, and both errors appear when both bounds are violated. -/
theorem c5_numeric_ranges (doc : Doc) (docId f : String) (rr : RangeRule) :
    (get_nested_value doc f = none → validate_numeric_ranges doc docId [(f, rr)] = []) ∧
    (∀ v, get_nested_value doc f = some v → isNumeric v = false →
      validate_numeric_ranges doc docId [(f, rr)] =
        ["Document " ++ docId ++ ": Field " ++ f ++ " is not numeric"]) ∧
    (∀ v, get_nested_value doc f = some v → isNumeric v = true →
      validate_numeric_ranges doc docId [(f, rr)] =
        (match rr.min with
         | some m =>
           if toRat v < m then
             ["Document " ++ docId ++ ": Value in " ++ f ++ " (\x7bvalue\x7d) is below minimum " ++ ratStr m]
           else []
         | none => []) ++
        (match rr.max with
         | some m =>
           if m < toRat v then
             ["Document " ++ docId ++ ": Value in " ++ f ++ " (\x7bvalue\x7d) is above maximum " ++ ratStr m]
           else []
         | none => [])) := by
  refine ⟨?_, ?_, ?_⟩
  · intro h
    simp [validate_numeric_ranges, h]
  · intro v h hn
    simp [validate_numeric_ranges, h, hn]
  · intro v h hn
    simp [validate_numeric_ranges, h, hn]

/-- Closed witness for C5: scenario C (`{_id: "x1", age: 150}` against
`{max: 120}` gives exactly one above-maximum error) and the misconfigured
`min: 10, max: 5` case where both checks fire for the value 7. -/
theorem c5_numeric_ranges_witness :
    validate_numeric_ranges [("_id", Value.vstr "x1"), ("age", Value.vint 150)] "x1"
        [("age", ⟨none, some 120⟩)] =
      ["Document x1: Value in age (\x7bvalue\x7d) is above maximum 120"] ∧
    validate_numeric_ranges [("_id", Value.vstr "x4"), ("n", Value.vint 7)] "x4"
        [("n", ⟨some 10, some 5⟩)] =
      ["Document x4: Value in n (\x7bvalue\x7d) is below minimum 10",
       "Document x4: Value in n (\x7bvalue\x7d) is above maximum 5"] := by
  constructor
  · rw [(c5_numeric_ranges [("_id", Value.vstr "x1"), ("age", Value.vint 150)] "x1" "age"
        ⟨none, some 120⟩).2.2 (Value.vint 150) rfl rfl]
    rfl
  · rw [(c5_numeric_ranges [("_id", Value.vstr "x4"), ("n", Value.vint 7)] "x4" "n"
        ⟨some 10, some 5⟩).2.2 (Value.vint 7) rfl rfl]
    rfl

/-- C6: the membership condition behaves as claimed (scenario D included:
an absent field is skipped), but the emitted message does not list the
found value: the source f-string `'{{value}}'` (line 40) renders the
literal text `{value}`, so for the document `{_id: "x2", color: "purple"}`
the message contains `{value}` and not `purple` — the code contradicts the
message contract, a doubled-brace f-string slip. -/
theorem c6_category_message_bug :
    validate_categories [("_id", Value.vstr "x2"), ("color", Value.vstr "purple")] "x2"
        [("color", [Value.vstr "red", Value.vstr "blue", Value.vstr "green"])] =
      ["Document x2: Invalid category in color. Found \x27\x7bvalue\x7d\x27, expected one of [\x27red\x27, \x27blue\x27, \x27green\x27]"] ∧
    strContains "Document x2: Invalid category in color. Found \x27\x7bvalue\x7d\x27, expected one of [\x27red\x27, \x27blue\x27, \x27green\x27]"
        "purple" = false ∧
    validate_categories [("_id", Value.vstr "x2"), ("tags", Value.vlist [Value.vstr "red", Value.vstr "blue"])] "x2"
        [("color", [Value.vstr "red", Value.vstr "blue", Value.vstr "green"])] = [] ∧
    validate_categories [("_id", Value.vstr "x5"), ("color", Value.vstr "red")] "x5"
        [("color", [Value.vstr "red", Value.vstr "blue", Value.vstr "green"])] = [] := by
  exact ⟨rfl, rfl, rfl, rfl⟩

theorem length_flatMap_if (p : String → Bool) (msg : String) (ks : List String) :
    (ks.flatMap fun k => if p k then [] else [msg]).length =
      (ks.filter fun k => !(p k)).length := by
  induction ks with
  | nil => rfl
  | cons k t ih =>
    cases h : p k <;> simp [h, ih]

/-- C8: for a present value stringified as S and required keyword set K,
the Keywords validator emits one error per keyword of K not contained in S
as a substring, so the number of emitted errors equals the count of
missing keywords. -/
theorem c8_keyword_error_count (doc : Doc) (docId f : String) (ks : List String) (v : Value)
    (h : get_nested_value doc f = some v) :
    (validate_keywords doc docId [(f, ks)]).length =
      (ks.filter fun k => !(strContains (pyStr v) k)).length := by
  simp only [validate_keywords, List.flatMap_cons, List.flatMap_nil, List.append_nil, h]
  exact length_flatMap_if (fun k => strContains (pyStr v) k) _ ks

/-- Closed witness for C8: scenario E — `bio: "expert in machine
learning"` against keywords `["machine", "deep"]` yields exactly one
error. -/
theorem c8_keyword_error_count_witness :
    (validate_keywords [("_id", Value.vstr "x3"), ("bio", Value.vstr "expert in machine learning")]
        "x3" [("bio", ["machine", "deep"])]).length = 1 := by
  rw [c8_keyword_error_count
        [("_id", Value.vstr "x3"), ("bio", Value.vstr "expert in machine learning")]
        "x3" "bio" ["machine", "deep"] (Value.vstr "expert in machine learning") rfl]
  rfl

/-- C1: `validate_collection` returns status Failed iff the error list is
non-empty, or the collection does not exist, or the actual count is below
`expected_count` (the latter two each force a non-empty error list, so the
disjunction is honest); and a count mismatch records exactly one
count-mismatch error at the head of the list without short-circuiting —
the per-document checks over the sample still follow it. -/
theorem c1_collection_status (db : DataSource) (name : String) (rules : CollectionRule) :
    ((validate_collection db name rules).status = "Failed" ↔
      (validate_collection db name rules).errors ≠ [] ∨ name ∉ db.collectionNames ∨
        (db.docsOf name).length < rules.expected_count.getD 0) ∧
    (∀ ec : Nat, name ∈ db.collectionNames → rules.expected_count = some ec →
      (db.docsOf name).length < ec →
      (validate_collection db name rules).errors =
        ("Expected " ++ toString ec ++ " documents, found " ++ toString (db.docsOf name).length) ::
          sampleErrors rules ((db.docsOf name).take (min 1000 (db.docsOf name).length))) := by
  constructor
  · by_cases hmem : name ∈ db.collectionNames
    · by_cases he : (collectionErrors db name rules).isEmpty
      · have hnil : collectionErrors db name rules = [] := by
          simpa using he
        have hcm : countMismatchErrors rules (db.docsOf name).length = [] := by
          have h2 := hnil
          rw [collectionErrors] at h2
          exact (List.append_eq_nil.mp h2).1
        have hnc : ¬ (db.docsOf name).length < rules.expected_count.getD 0 :=
          (countMismatchErrors_eq_nil_iff rules _).mp hcm
        simp [validate_collection, hmem, he, hnil, hnc]
      · have hne : collectionErrors db name rules ≠ [] := by
          simpa using he
        simp [validate_collection, hmem, he, hne]
    · simp [validate_collection, hmem]
  · intro ec hmem hec hlt
    simp [validate_collection, hmem, collectionErrors, countMismatchErrors, hec, hlt]

/-- Closed witness for C1: scenario B — expected 10, actual 1, no other
rules: the error list is exactly the count-mismatch error, followed by the
(empty) per-document errors of the sample, and the status is Failed. -/
theorem c1_collection_status_witness :
    (validate_collection ⟨["users"], fun _ => [[("_id", Value.vstr "x1")]]⟩ "users"
        { emptyRule with expected_count := some 10 }).errors =
      ["Expected 10 documents, found 1"] ∧
    (validate_collection ⟨["users"], fun _ => [[("_id", Value.vstr "x1")]]⟩ "users"
        { emptyRule with expected_count := some 10 }).status = "Failed" := by
  constructor
  · rw [(c1_collection_status ⟨["users"], fun _ => [[("_id", Value.vstr "x1")]]⟩ "users"
        { emptyRule with expected_count := some 10 }).2 10 (by decide) rfl (by decide)]
    rfl
  · rw [(c1_collection_status ⟨["users"], fun _ => [[("_id", Value.vstr "x1")]]⟩ "users"
        { emptyRule with expected_count := some 10 }).1]
    left
    rw [(c1_collection_status ⟨["users"], fun _ => [[("_id", Value.vstr "x1")]]⟩ "users"
        { emptyRule with expected_count := some 10 }).2 10 (by decide) rfl (by decide)]
    simp
